import Mathlib

/-
Verification of the FASTA-reader abstraction layer in `src/file_parsers.py`
(IsoQuant).  The module is embedded shallowly:

* Sequences are `List Char` (Python `str`).
* Python dictionaries keyed by chromosome-id strings are association lists
  consulted with `dictGet` (first match) and updated with `dictSet`
  (replacing an existing binding in place, appending otherwise) — the
  semantics of `d.get(k)` / `d[k] = v` on a `dict` whose keys are unique.
* Python exceptions are the `PyErr` type; a fallible operation returns
  `Except PyErr α`.  Methods that may mutate their object additionally
  return the updated object (explicit state passing).
* The external parsing engines (pyfaidx, eccLib) are out of scope per the
  spec; they are modelled as the per-chromosome sequence mapping they
  expose, with pyfaidx record slicing behaving as Python slicing and
  `eccLib` records dumping their full sequence.  Load/parse outcomes of
  the engines are passed in as `Except` parameters.
* The module-level capability probe (lines 31-46) is a function from the
  possible platform outcomes of `import eccLib` to the resulting pair of
  globals; `except ImportError` catches only `ImportError`, the inner
  `except Exception` around the attribute inspection catches everything.
-/

namespace IsoQuantFileParsers

/-- Python exception values relevant to this module. -/
inductive PyErr where
  | keyError (key : String)
  | indexError (msg : String)
  | typeError (msg : String)
  | exc (msg : String)
deriving DecidableEq, Repr

/-- The text interpolated by `f"... {e}"` when an exception is logged. -/
def PyErr.message : PyErr → String
  | .keyError k => k
  | .indexError m => m
  | .typeError m => m
  | .exc m => m

/-- A line emitted through `logger`. -/
inductive LogEntry where
  | info (msg : String)
  | warning (msg : String)
deriving DecidableEq, Repr

/-- Lookup in a Python dict modelled as an association list: `d.get(k)`. -/
def dictGet {α : Type} : List (String × α) → String → Option α
  | [], _ => none
  | kv :: rest, k => if kv.1 = k then some kv.2 else dictGet rest k

/-- Assignment `d[k] = v` on a Python dict modelled as an association list:
replace the existing binding for `k` if there is one, append otherwise. -/
def dictSet {α : Type} : List (String × α) → String → α → List (String × α)
  | [], k, v => [(k, v)]
  | kv :: rest, k, v => if kv.1 = k then (k, v) :: rest else kv :: dictSet rest k v

/-- Normalisation of one slice bound against a sequence of length `n`,
Python semantics for step 1: a negative bound counts from the end and is
clamped at 0, a nonnegative bound is clamped at `n`. -/
def sliceIdx (n : Nat) (i : Int) : Nat :=
  if i < 0 then ((n : Int) + i).toNat else min i.toNat n

/-- Python slicing `s[start:stop]` (step 1) with optional bounds: a missing
start defaults to 0, a missing stop defaults to the length. -/
def pySlice (s : List Char) (start stop : Option Int) : List Char :=
  let a := match start with
    | none => 0
    | some i => sliceIdx s.length i
  let b := match stop with
    | none => s.length
    | some i => sliceIdx s.length i
  (s.take b).drop a

/-- Python string indexing `s[i]` for an integer `i`: negative indices count
from the end, out-of-range indices raise `IndexError`.  The result is the
one-character string Python returns. -/
def pyCharAt (s : List Char) (i : Int) : Except PyErr (List Char) :=
  if 0 ≤ i ∧ i < (s.length : Int) then .ok ((s.drop i.toNat).take 1)
  else if -(s.length : Int) ≤ i ∧ i < 0 then
    .ok ((s.drop ((s.length : Int) + i).toNat).take 1)
  else .error (.indexError "string index out of range")

/-- The pair of module-level globals set by the probe block
(`ECCLIB_AVAILABLE`, `ECCLIB_WORKING`). -/
structure ProbeState where
  ECCLIB_AVAILABLE : Bool
  ECCLIB_WORKING : Bool
deriving DecidableEq, Repr

/-- Platform outcome of executing `import eccLib`:
the import raises `ImportError` (module absent or import machinery
failure), raises some non-`ImportError` exception with message `msg`, or
succeeds, in which case the two `hasattr` probes and whether the attribute
inspection itself raises characterise the module. -/
inductive ImportOutcome where
  | absent
  | failsWith (msg : String)
  | success (hasParseFASTA hasParseGTF attrCheckRaises : Bool)
deriving DecidableEq, Repr

/-- The module-level probe block (`file_parsers.py` lines 31-46): globals
start false; on successful import `ECCLIB_AVAILABLE` is set, then
`ECCLIB_WORKING` is set when both entry points are present, any exception
of the attribute inspection being absorbed; `except ImportError` absorbs
only `ImportError`, so any other exception escaping the import propagates
out of the module body. -/
def moduleProbeInit : ImportOutcome → Except PyErr ProbeState
  | .absent => .ok { ECCLIB_AVAILABLE := false, ECCLIB_WORKING := false }
  | .failsWith m => .error (.exc m)
  | .success hf hg ar =>
      .ok { ECCLIB_AVAILABLE := true
            ECCLIB_WORKING := if ar then false else hf && hg }

/-- `is_ecclib_available()`: reads the two globals and returns their
conjunction. -/
def is_ecclib_available (st : ProbeState) : Bool :=
  st.ECCLIB_AVAILABLE && st.ECCLIB_WORKING

/-- One call of `is_ecclib_available()` viewed as a state transition on the
module globals: it returns the conjunction and leaves the state untouched
(the function body only reads the globals). -/
def is_ecclib_available_call (st : ProbeState) : Bool × ProbeState :=
  (is_ecclib_available st, st)

/-- `n` successive calls of `is_ecclib_available()`, collecting the returned
booleans and threading the module state. -/
def probe_calls : Nat → ProbeState → List Bool × ProbeState
  | 0, st => ([], st)
  | n + 1, st =>
      let (b, st1) := is_ecclib_available_call st
      let (bs, st2) := probe_calls n st1
      (b :: bs, st2)

/-- State of a `PyfaidxReader`: `self.fasta` is `None` until `load`
succeeds, afterwards the handle of the pyfaidx engine, modelled as the
per-chromosome sequence mapping the engine exposes. -/
structure PyfaidxReader where
  fasta : Option (List (String × List Char))
deriving DecidableEq, Repr

/-- `PyfaidxReader.__init__`: no file loaded yet. -/
def PyfaidxReader.mk_init : PyfaidxReader := { fasta := none }

/-- `PyfaidxReader.load`: `self.fasta = Fasta(path[, indexname])`.  The
engine call is external; its outcome (the exposed mapping, or the
exception it raises) is the parameter, and an exception propagates
unchanged.  The index-path plumbing only selects engine arguments and is
absorbed into the outcome parameter. -/
def PyfaidxReader.load (r : PyfaidxReader)
    (openResult : Except PyErr (List (String × List Char))) :
    Except PyErr PyfaidxReader :=
  match openResult with
  | .error e => .error e
  | .ok f => .ok { r with fasta := some f }

/-- `PyfaidxReader.get_sequence`: four-way dispatch on which of
`start`/`end` are `None`, each branch delegating to the engine's native
slice of `self.fasta[chr_id]` (Python open slicing over the record's
sequence).  A missing chromosome raises `KeyError`; an unloaded reader
raises `TypeError` (`None` is not subscriptable). -/
def PyfaidxReader.get_sequence (r : PyfaidxReader) (chr_id : String)
    (start stop : Option Int) : Except PyErr (List Char) :=
  match r.fasta with
  | none => .error (.typeError "NoneType object is not subscriptable")
  | some f =>
    match dictGet f chr_id with
    | none => .error (.keyError chr_id)
    | some seq =>
      match start, stop with
      | none, none => .ok (pySlice seq none none)
      | some s, some e => .ok (pySlice seq (some s) (some e))
      | some s, none => .ok (pySlice seq (some s) none)
      | none, some e => .ok (pySlice seq none (some e))

/-- `PyfaidxReader.get_chromosome_length`: `len(self.fasta[chr_id])`, the
engine record's length, i.e. the length of its sequence. -/
def PyfaidxReader.get_chromosome_length (r : PyfaidxReader) (chr_id : String) :
    Except PyErr Nat :=
  match r.fasta with
  | none => .error (.typeError "NoneType object is not subscriptable")
  | some f =>
    match dictGet f chr_id with
    | none => .error (.keyError chr_id)
    | some seq => .ok seq.length

/-- `PyfaidxReader.get_chromosome_ids`: `list(self.fasta.keys())`. -/
def PyfaidxReader.get_chromosome_ids (r : PyfaidxReader) :
    Except PyErr (List String) :=
  match r.fasta with
  | none => .error (.typeError "NoneType object has no keys")
  | some f => .ok (f.map Prod.fst)

/-- State of an `EccLibFASTAReader`: `self.fasta_data` is `None` until
`load` succeeds, afterwards the parsed handle returned by
`eccLib.parseFASTA` — modelled as the chromosome-to-sequence mapping it
holds, a record's `dump()` being its stored sequence; `_sequence_cache`
is the string cache dict. -/
structure EccLibFASTAReader where
  fasta_data : Option (List (String × List Char))
  sequence_cache : List (String × List Char)
deriving DecidableEq, Repr

/-- `EccLibFASTAReader.__init__`: no parse yet, empty cache. -/
def EccLibFASTAReader.mk_init : EccLibFASTAReader :=
  { fasta_data := none, sequence_cache := [] }

/-- The eager-caching loop of `EccLibFASTAReader.load`:
`for chr_id in self.fasta_data.keys(): self._sequence_cache[chr_id] =
self.fasta_data[chr_id].dump()`.  The key list is always the handle's own
key list, so the inner lookup never misses (the `none` branch is
unreachable for the call `load` makes). -/
def eagerCache (data : List (String × List Char)) :
    List String → List (String × List Char) → List (String × List Char)
  | [], cache => cache
  | k :: rest, cache =>
      match dictGet data k with
      | some seq => eagerCache data rest (dictSet cache k seq)
      | none => eagerCache data rest cache

/-- `EccLibFASTAReader.load`: run `eccLib.parseFASTA` (outcome passed in),
then pre-cache every chromosome's dumped sequence; on a parse exception,
log a warning carrying the underlying message and re-raise the same
exception.  `index_path` is accepted by the source but ignored. -/
def EccLibFASTAReader.load (r : EccLibFASTAReader)
    (parseResult : Except PyErr (List (String × List Char))) :
    Except PyErr EccLibFASTAReader × List LogEntry :=
  match parseResult with
  | .ok data =>
      (.ok { r with
              fasta_data := some data
              sequence_cache := eagerCache data (data.map Prod.fst) r.sequence_cache },
       [])
  | .error e =>
      (.error e, [.warning ("eccLib FASTA parsing failed: " ++ e.message)])

/-- The slicing branch structure of `EccLibFASTAReader.get_sequence`
(lines 187-194): full cached string when both bounds are `None`, explicit
Python string slices otherwise. -/
def EccLibFASTAReader.sliceResult (seq : List Char) (start stop : Option Int) :
    List Char :=
  match start, stop with
  | none, none => seq
  | some s, some e => pySlice seq (some s) (some e)
  | some s, none => pySlice seq (some s) none
  | none, some e => pySlice seq none (some e)

/-- The sequence `EccLibFASTAReader.get_sequence` /
`get_chromosome_length` would operate on for `chr_id`: the cache entry if
present, else the raw handle's record.  (Pure lookup; the methods
themselves also insert on a cache miss.) -/
def EccLibFASTAReader.lookupSeq (r : EccLibFASTAReader) (chr_id : String) :
    Option (List Char) :=
  match dictGet r.sequence_cache chr_id with
  | some seq => some seq
  | none =>
    match r.fasta_data with
    | none => none
    | some data => dictGet data chr_id

/-- `EccLibFASTAReader.get_sequence`: consult the cache; on a miss, dump
the sequence from the raw parsed handle and insert it into the cache;
then dispatch on the optional bounds.  Subscripting a `None` handle
raises `TypeError`; a missing chromosome raises `KeyError`. -/
def EccLibFASTAReader.get_sequence (r : EccLibFASTAReader) (chr_id : String)
    (start stop : Option Int) :
    Except PyErr (List Char) × EccLibFASTAReader :=
  match dictGet r.sequence_cache chr_id with
  | some seq => (.ok (EccLibFASTAReader.sliceResult seq start stop), r)
  | none =>
    match r.fasta_data with
    | none => (.error (.typeError "NoneType object is not subscriptable"), r)
    | some data =>
      match dictGet data chr_id with
      | none => (.error (.keyError chr_id), r)
      | some seq =>
          (.ok (EccLibFASTAReader.sliceResult seq start stop),
           { r with sequence_cache := dictSet r.sequence_cache chr_id seq })

/-- `EccLibFASTAReader.get_chromosome_length`: same cache-or-derive lookup
as `get_sequence`, returning `len(seq)`. -/
def EccLibFASTAReader.get_chromosome_length (r : EccLibFASTAReader)
    (chr_id : String) : Except PyErr Nat × EccLibFASTAReader :=
  match dictGet r.sequence_cache chr_id with
  | some seq => (.ok seq.length, r)
  | none =>
    match r.fasta_data with
    | none => (.error (.typeError "NoneType object is not subscriptable"), r)
    | some data =>
      match dictGet data chr_id with
      | none => (.error (.keyError chr_id), r)
      | some seq =>
          (.ok seq.length,
           { r with sequence_cache := dictSet r.sequence_cache chr_id seq })

/-- `EccLibFASTAReader.get_chromosome_ids`: `list(self.fasta_data.keys())`. -/
def EccLibFASTAReader.get_chromosome_ids (r : EccLibFASTAReader) :
    Except PyErr (List String) :=
  match r.fasta_data with
  | none => .error (.typeError "NoneType object has no keys")
  | some data => .ok (data.map Prod.fst)

/-- The key passed to `EccLibChromosomeRecord.__getitem__`: a slice object
(with optional start, stop and step), an integer, or a value of any other
type, carried with its type's `__name__`. -/
inductive Key where
  | slice (start stop step : Option Int)
  | int (i : Int)
  | other (typeName : String)
deriving DecidableEq, Repr

/-- `EccLibChromosomeRecord.__getitem__` for the record over `(reader,
chr_id)`: a slice delegates to `get_sequence(chr_id, key.start,
key.stop)` (the step is never read); an integer indexes the full
sequence; any other key raises `TypeError` naming the key's type, the
reader untouched. -/
def EccLibChromosomeRecord.getitem (reader : EccLibFASTAReader)
    (chr_id : String) (key : Key) :
    Except PyErr (List Char) × EccLibFASTAReader :=
  match key with
  | .slice s e _ => reader.get_sequence chr_id s e
  | .int i =>
      let (res, r1) := reader.get_sequence chr_id none none
      match res with
      | .error err => (.error err, r1)
      | .ok seq => (pyCharAt seq i, r1)
  | .other tn =>
      (.error (.typeError ("indices must be integers or slices, not " ++ tn)),
       reader)

/-- `EccLibChromosomeRecord.__len__`: the reader's chromosome length. -/
def EccLibChromosomeRecord.len (reader : EccLibFASTAReader) (chr_id : String) :
    Except PyErr Nat × EccLibFASTAReader :=
  reader.get_chromosome_length chr_id

/-- A constructed reader instance, as returned by the factory. -/
inductive FASTAReaderState where
  | pyfaidxReader (r : PyfaidxReader)
  | ecclibReader (r : EccLibFASTAReader)
deriving DecidableEq, Repr

/-- Whether a factory result is the eccLib adaptation adapter. -/
def FASTAReaderState.isEccLib : FASTAReaderState → Bool
  | .ecclibReader _ => true
  | .pyfaidxReader _ => false

/-- `get_fasta_reader(use_ecclib)`: eccLib adapter exactly when the flag is
set and the probe reports it available and working, with the info /
fallback-warning log lines of the source; otherwise a fresh pyfaidx
adapter. -/
def get_fasta_reader (use_ecclib : Bool) (st : ProbeState) :
    FASTAReaderState × List LogEntry :=
  if use_ecclib then
    if is_ecclib_available st then
      (.ecclibReader EccLibFASTAReader.mk_init,
       [.info "Using eccLib for FASTA access"])
    else
      if st.ECCLIB_AVAILABLE then
        (.pyfaidxReader PyfaidxReader.mk_init,
         [.warning "eccLib is installed but not working correctly on this platform, falling back to pyfaidx"])
      else
        (.pyfaidxReader PyfaidxReader.mk_init,
         [.warning "eccLib requested but not installed, falling back to pyfaidx"])
  else
    (.pyfaidxReader PyfaidxReader.mk_init, [])

/-- `create_fasta_reader(fasta_path, index_path, use_ecclib)`: choose a
backend with `get_fasta_reader`, then `reader.load(...)`.  The engine
outcomes for the two possible backends are passed in; whichever backend
was chosen, its load failure propagates (there is no retry and no second
backend construction). -/
def create_fasta_reader (use_ecclib : Bool) (st : ProbeState)
    (ecclibParseResult pyfaidxOpenResult : Except PyErr (List (String × List Char))) :
    Except PyErr FASTAReaderState × List LogEntry :=
  let (reader, logs) := get_fasta_reader use_ecclib st
  match reader with
  | .ecclibReader r =>
      let (res, loadLogs) := r.load ecclibParseResult
      match res with
      | .error e => (.error e, logs ++ loadLogs)
      | .ok r1 => (.ok (.ecclibReader r1), logs ++ loadLogs)
  | .pyfaidxReader r =>
      match r.load pyfaidxOpenResult with
      | .error e => (.error e, logs)
      | .ok r1 => (.ok (.pyfaidxReader r1), logs)

/-- A small concrete reference file used to instantiate the theorems:
two chromosomes with known sequences. -/
def sampleSeqs : List (String × List Char) :=
  [("chr1", ['A', 'C', 'G', 'T']), ("chr2", ['T', 'T'])]

/-- A pyfaidx reader loaded with the sample file. -/
def samplePyfaidx : PyfaidxReader := { fasta := some sampleSeqs }

/-- An eccLib reader loaded with the sample file, cache fully populated. -/
def sampleEccLib : EccLibFASTAReader :=
  { fasta_data := some sampleSeqs, sequence_cache := sampleSeqs }

/-- An eccLib reader holding the sample parse but with an empty cache
(the cache-miss configuration). -/
def sampleEccLibNoCache : EccLibFASTAReader :=
  { fasta_data := some sampleSeqs, sequence_cache := [] }

/-- The eccLib reader produced by `load` on a fresh instance when the
parse returns the sample mapping. -/
def sampleEccLibLoaded : EccLibFASTAReader :=
  { fasta_data := some sampleSeqs,
    sequence_cache := eagerCache sampleSeqs (sampleSeqs.map Prod.fst) [] }

/-- A slice with both bounds missing is the whole sequence. -/
theorem pySlice_none_none (s : List Char) : pySlice s none none = s := by
  simp [pySlice]

/-- The eccLib slicing dispatch agrees with Python slicing in each of the
four bound configurations. -/
theorem sliceResult_eq_pySlice (seq : List Char) (start stop : Option Int) :
    EccLibFASTAReader.sliceResult seq start stop = pySlice seq start stop := by
  cases start <;> cases stop <;>
    simp [EccLibFASTAReader.sliceResult, pySlice_none_none]

/-- Looking up the key just assigned returns the assigned value. -/
theorem dictGet_dictSet_self {α : Type} (d : List (String × α)) (k : String)
    (v : α) : dictGet (dictSet d k v) k = some v := by
  induction d with
  | nil => simp [dictSet, dictGet]
  | cons kv rest ih =>
    by_cases h : kv.1 = k
    · simp [dictSet, dictGet, h]
    · simp [dictSet, dictGet, h, ih]

/-- Assigning one key leaves every other key's lookup unchanged. -/
theorem dictGet_dictSet_ne {α : Type} (d : List (String × α)) (k k' : String)
    (v : α) (h : k' ≠ k) : dictGet (dictSet d k v) k' = dictGet d k' := by
  have hkk : ¬ k = k' := fun hh => h hh.symm
  induction d with
  | nil => simp [dictSet, dictGet, hkk]
  | cons kv rest ih =>
    by_cases hk : kv.1 = k
    · subst hk
      simp [dictSet, dictGet, hkk]
    · simp [dictSet, dictGet, hk, ih]

/-- A successful lookup means the key occurs in the dict's key list. -/
theorem dictGet_mem_keys {α : Type} (d : List (String × α)) (c : String)
    (v : α) (h : dictGet d c = some v) : c ∈ d.map Prod.fst := by
  induction d with
  | nil => simp [dictGet] at h
  | cons kv rest ih =>
    rw [List.map_cons]
    by_cases hk : kv.1 = c
    · exact List.mem_cons.mpr (Or.inl hk.symm)
    · rw [dictGet, if_neg hk] at h
      exact List.mem_cons.mpr (Or.inr (ih h))

/-- A key occurring in the dict's key list has a successful lookup. -/
theorem mem_keys_dictGet {α : Type} (d : List (String × α)) (c : String)
    (h : c ∈ d.map Prod.fst) : ∃ v, dictGet d c = some v := by
  induction d with
  | nil => simp at h
  | cons kv rest ih =>
    by_cases hk : kv.1 = c
    · exact ⟨kv.2, by rw [dictGet, if_pos hk]⟩
    · rw [List.map_cons] at h
      rcases List.mem_cons.mp h with h1 | h1
      · exact absurd h1.symm hk
      · rcases ih h1 with ⟨v, hv⟩
        exact ⟨v, by rw [dictGet, if_neg hk]; exact hv⟩

/-- The eager-caching loop leaves keys outside its key list untouched. -/
theorem eagerCache_not_mem (data : List (String × List Char))
    (ks : List String) (cache : List (String × List Char)) (c : String)
    (h : c ∉ ks) :
    dictGet (eagerCache data ks cache) c = dictGet cache c := by
  induction ks generalizing cache with
  | nil => simp [eagerCache]
  | cons k rest ih =>
    have hck : c ≠ k := fun hh => h (by simp [hh])
    have hcr : c ∉ rest := fun hh => h (by simp [hh])
    cases hdk : dictGet data k with
    | some seq =>
        simp only [eagerCache, hdk]
        rw [ih _ hcr, dictGet_dictSet_ne _ _ _ _ hck]
    | none =>
        simp only [eagerCache, hdk]
        exact ih _ hcr

/-- After the eager-caching loop, every key of its key list that the raw
handle maps to `v` is cached with value `v`. -/
theorem eagerCache_mem (data : List (String × List Char)) (ks : List String)
    (cache : List (String × List Char)) (c : String) (v : List Char)
    (hv : dictGet data c = some v) (h : c ∈ ks) :
    dictGet (eagerCache data ks cache) c = some v := by
  induction ks generalizing cache with
  | nil => simp at h
  | cons k rest ih =>
    by_cases hcr : c ∈ rest
    · cases hdk : dictGet data k with
      | some seq => simp only [eagerCache, hdk]; exact ih _ hcr
      | none => simp only [eagerCache, hdk]; exact ih _ hcr
    · have hck : c = k := by
        rcases List.mem_cons.mp h with h1 | h1
        · exact h1
        · exact absurd h1 hcr
      subst hck
      simp only [eagerCache, hv]
      rw [eagerCache_not_mem _ _ _ _ hcr, dictGet_dictSet_self]

/-- Repeated probe calls return a constant list of booleans and leave the
module state unchanged. -/
theorem probe_calls_replicate (n : Nat) (st : ProbeState) :
    probe_calls n st = (List.replicate n (is_ecclib_available st), st) := by
  induction n with
  | zero => simp [probe_calls]
  | succ m ih => simp [probe_calls, is_ecclib_available_call, ih, List.replicate]

/-- The value `get_sequence` returns is the slicing dispatch applied to
the cache-or-handle sequence for the chromosome. -/
theorem get_sequence_val (r : EccLibFASTAReader) (c : String)
    (seq : List Char) (h : r.lookupSeq c = some seq) (s e : Option Int) :
    (r.get_sequence c s e).1 = .ok (EccLibFASTAReader.sliceResult seq s e) := by
  cases hc : dictGet r.sequence_cache c with
  | some sq =>
      have hs : sq = seq := by
        simpa [EccLibFASTAReader.lookupSeq, hc] using h
      subst hs
      simp [EccLibFASTAReader.get_sequence, hc]
  | none =>
      cases hd : r.fasta_data with
      | none =>
          exfalso
          simp [EccLibFASTAReader.lookupSeq, hc, hd] at h
      | some data =>
          have hr : dictGet data c = some seq := by
            simpa [EccLibFASTAReader.lookupSeq, hc, hd] using h
          simp [EccLibFASTAReader.get_sequence, hc, hd, hr]

/-- The value `get_chromosome_length` returns is the length of the
cache-or-handle sequence for the chromosome. -/
theorem get_chromosome_length_val (r : EccLibFASTAReader) (c : String)
    (seq : List Char) (h : r.lookupSeq c = some seq) :
    (r.get_chromosome_length c).1 = .ok seq.length := by
  cases hc : dictGet r.sequence_cache c with
  | some sq =>
      have hs : sq = seq := by
        simpa [EccLibFASTAReader.lookupSeq, hc] using h
      subst hs
      simp [EccLibFASTAReader.get_chromosome_length, hc]
  | none =>
      cases hd : r.fasta_data with
      | none =>
          exfalso
          simp [EccLibFASTAReader.lookupSeq, hc, hd] at h
      | some data =>
          have hr : dictGet data c = some seq := by
            simpa [EccLibFASTAReader.lookupSeq, hc, hd] using h
          simp [EccLibFASTAReader.get_chromosome_length, hc, hd, hr]

/-- C1: for every flag, `get_fasta_reader(use_ecclib)` returns the eccLib
adaptation adapter exactly when `use_ecclib` is true and the probe
reports the backend both available and working; in every other case it
returns a fresh pyfaidx pass-through adapter. -/
theorem spec_C1 (use_ecclib : Bool) (st : ProbeState) :
    ((get_fasta_reader use_ecclib st).1.isEccLib
        = (use_ecclib && (st.ECCLIB_AVAILABLE && st.ECCLIB_WORKING)))
    ∧ ((get_fasta_reader use_ecclib st).1.isEccLib = false →
        (get_fasta_reader use_ecclib st).1
          = .pyfaidxReader PyfaidxReader.mk_init) := by
  obtain ⟨a, w⟩ := st
  cases use_ecclib <;> cases a <;> cases w <;>
    simp [get_fasta_reader, is_ecclib_available, FASTAReaderState.isEccLib]

/-- C1 witness: with the flag off and the probe fully positive, the
factory still returns the pass-through adapter. -/
theorem spec_C1_witness :
    (get_fasta_reader false ⟨true, true⟩).1
      = .pyfaidxReader PyfaidxReader.mk_init :=
  (spec_C1 false ⟨true, true⟩).2 rfl

/-- C5 (amended): the probe never raises provided every exception escaping
`import eccLib` is an `ImportError` (exceptions of the attribute
inspection are always absorbed, whatever the `hasattr` outcomes); and for
any number of calls, `is_ecclib_available()` returns the same boolean
every time and leaves the module state untouched — the availability check
itself runs only once, in the module body, and is never re-run by the
calls. -/
theorem spec_C5_amended :
    (∀ (hf hg ar : Bool), ∃ st, moduleProbeInit (.success hf hg ar) = .ok st)
    ∧ (∃ st, moduleProbeInit .absent = .ok st)
    ∧ (∀ (st : ProbeState) (n : Nat),
        probe_calls n st = (List.replicate n (is_ecclib_available st), st)) :=
  ⟨fun _ _ _ => ⟨_, rfl⟩, ⟨_, rfl⟩, fun st n => probe_calls_replicate n st⟩

/-- C5 counterexample: the claim says the probe never raises under any
platform condition including an exception raised during import, but
`except ImportError` absorbs only `ImportError`: a platform whose
`import eccLib` raises any other exception makes the probe block itself
raise. -/
theorem spec_C5_counterexample :
    moduleProbeInit (.failsWith "RuntimeError raised by eccLib module body")
      = .error (.exc "RuntimeError raised by eccLib module body") := rfl

/-- C9: in every state the probe block can produce, `ECCLIB_WORKING`
implies `ECCLIB_AVAILABLE`, and `is_ecclib_available()` returns exactly
`ECCLIB_WORKING`. -/
theorem spec_C9 (oc : ImportOutcome) (st : ProbeState)
    (h : moduleProbeInit oc = .ok st) :
    (st.ECCLIB_WORKING = true → st.ECCLIB_AVAILABLE = true)
    ∧ is_ecclib_available st = st.ECCLIB_WORKING := by
  cases oc with
  | absent =>
      simp only [moduleProbeInit, Except.ok.injEq] at h
      subst h
      simp [is_ecclib_available]
  | failsWith m => simp [moduleProbeInit] at h
  | success hf hg ar =>
      simp only [moduleProbeInit, Except.ok.injEq] at h
      subst h
      simp [is_ecclib_available]

/-- C9 witness: the state reached by a successful import with both entry
points present. -/
theorem spec_C9_witness :
    (((⟨true, true⟩ : ProbeState).ECCLIB_WORKING = true →
        (⟨true, true⟩ : ProbeState).ECCLIB_AVAILABLE = true)
      ∧ is_ecclib_available ⟨true, true⟩
          = (⟨true, true⟩ : ProbeState).ECCLIB_WORKING) :=
  spec_C9 (.success true true false) ⟨true, true⟩ rfl

/-- C10: region-view slicing ignores the slice's step component entirely —
for every reader state, chromosome and step value, indexing with
`start:stop:step` returns the same result and the same reader state as
indexing with `start:stop`. -/
theorem spec_C10 (r : EccLibFASTAReader) (c : String) (s e st : Option Int) :
    EccLibChromosomeRecord.getitem r c (.slice s e st)
      = EccLibChromosomeRecord.getitem r c (.slice s e none) := rfl

/-- C2: for a loaded reader of either adapter and a chromosome present in
it, the four optional-bound forms of `get_sequence` return exactly the
Python open slices `seq[:]`, `seq[start:]`, `seq[:end]` and
`seq[start:end]` of the chromosome's full sequence. -/
theorem spec_C2 (rp : PyfaidxReader) (re : EccLibFASTAReader) (c : String)
    (f : List (String × List Char)) (seqp seqe : List Char) (s e : Int)
    (hf : rp.fasta = some f) (hp : dictGet f c = some seqp)
    (he : re.lookupSeq c = some seqe) :
    (rp.get_sequence c none none = .ok (pySlice seqp none none)
      ∧ rp.get_sequence c (some s) none = .ok (pySlice seqp (some s) none)
      ∧ rp.get_sequence c none (some e) = .ok (pySlice seqp none (some e))
      ∧ rp.get_sequence c (some s) (some e)
          = .ok (pySlice seqp (some s) (some e)))
    ∧ ((re.get_sequence c none none).1 = .ok (pySlice seqe none none)
      ∧ (re.get_sequence c (some s) none).1 = .ok (pySlice seqe (some s) none)
      ∧ (re.get_sequence c none (some e)).1 = .ok (pySlice seqe none (some e))
      ∧ (re.get_sequence c (some s) (some e)).1
          = .ok (pySlice seqe (some s) (some e))) := by
  constructor
  · refine ⟨?_, ?_, ?_, ?_⟩ <;> simp [PyfaidxReader.get_sequence, hf, hp]
  · refine ⟨?_, ?_, ?_, ?_⟩ <;>
      rw [get_sequence_val re c seqe he, sliceResult_eq_pySlice]

/-- C2 witness: both sample readers on `chr1` with bounds 1 and 3. -/
theorem spec_C2_witness :
    samplePyfaidx.get_sequence "chr1" (some 1) (some 3)
        = .ok (pySlice ['A', 'C', 'G', 'T'] (some 1) (some 3))
    ∧ (sampleEccLib.get_sequence "chr1" (some 1) (some 3)).1
        = .ok (pySlice ['A', 'C', 'G', 'T'] (some 1) (some 3)) :=
  ⟨(spec_C2 samplePyfaidx sampleEccLib "chr1" sampleSeqs
      ['A', 'C', 'G', 'T'] ['A', 'C', 'G', 'T'] 1 3 rfl rfl rfl).1.2.2.2,
   (spec_C2 samplePyfaidx sampleEccLib "chr1" sampleSeqs
      ['A', 'C', 'G', 'T'] ['A', 'C', 'G', 'T'] 1 3 rfl rfl rfl).2.2.2.2⟩

/-- C3: when both adapters sit on the same per-chromosome sequences — the
pyfaidx reader holding the engine mapping, the eccLib reader freshly
loaded from a parse of that same mapping — they agree on
`get_chromosome_length` and on `get_sequence` for every in-range pair
`0 <= start <= end <= length`. -/
theorem spec_C3 (seqs : List (String × List Char)) (c : String)
    (seq : List Char) (start stop : Nat) (re : EccLibFASTAReader)
    (hs : dictGet seqs c = some seq)
    (_h1 : start ≤ stop) (_h2 : stop ≤ seq.length)
    (hload : (EccLibFASTAReader.mk_init.load (.ok seqs)).1 = .ok re) :
    (({ fasta := some seqs } : PyfaidxReader).get_chromosome_length c
        = .ok seq.length
      ∧ (re.get_chromosome_length c).1 = .ok seq.length
      ∧ (re.get_chromosome_length c).1
          = ({ fasta := some seqs } : PyfaidxReader).get_chromosome_length c)
    ∧ (({ fasta := some seqs } : PyfaidxReader).get_sequence c
          (some (start : Int)) (some (stop : Int))
        = .ok (pySlice seq (some (start : Int)) (some (stop : Int)))
      ∧ (re.get_sequence c (some (start : Int)) (some (stop : Int))).1
          = .ok (pySlice seq (some (start : Int)) (some (stop : Int)))
      ∧ (re.get_sequence c (some (start : Int)) (some (stop : Int))).1
          = ({ fasta := some seqs } : PyfaidxReader).get_sequence c
              (some (start : Int)) (some (stop : Int))) := by
  have hre : re = { fasta_data := some seqs,
                    sequence_cache := eagerCache seqs (seqs.map Prod.fst) [] } := by
    simp [EccLibFASTAReader.load, EccLibFASTAReader.mk_init] at hload
    exact hload.symm
  subst hre
  have hcache : dictGet (eagerCache seqs (seqs.map Prod.fst) []) c = some seq :=
    eagerCache_mem seqs _ [] c seq hs (dictGet_mem_keys seqs c seq hs)
  have hlook :
      EccLibFASTAReader.lookupSeq
        { fasta_data := some seqs,
          sequence_cache := eagerCache seqs (seqs.map Prod.fst) [] } c
        = some seq := by
    simp [EccLibFASTAReader.lookupSeq, hcache]
  refine ⟨⟨?_, ?_, ?_⟩, ?_, ?_, ?_⟩ <;>
    simp [PyfaidxReader.get_chromosome_length, PyfaidxReader.get_sequence, hs,
          get_chromosome_length_val _ c seq hlook,
          get_sequence_val _ c seq hlook, sliceResult_eq_pySlice]

/-- C3 witness: the sample file, chromosome `chr1`, range 1..3. -/
theorem spec_C3_witness :
    ((sampleEccLibLoaded.get_chromosome_length "chr1").1
        = ({ fasta := some sampleSeqs } : PyfaidxReader).get_chromosome_length
            "chr1")
    ∧ ((sampleEccLibLoaded.get_sequence "chr1" (some 1) (some 3)).1
        = ({ fasta := some sampleSeqs } : PyfaidxReader).get_sequence "chr1"
            (some 1) (some 3)) :=
  ⟨(spec_C3 sampleSeqs "chr1" ['A', 'C', 'G', 'T'] 1 3 sampleEccLibLoaded rfl
      (by decide) (by decide) rfl).1.2.2,
   (spec_C3 sampleSeqs "chr1" ['A', 'C', 'G', 'T'] 1 3 sampleEccLibLoaded rfl
      (by decide) (by decide) rfl).2.2.2⟩

/-- C4: region-view indexing — a slice key returns exactly
`get_sequence(chr_id, key.start, key.stop)`; a valid integer key returns
the one-character string at that offset of the full sequence; any other
key raises `TypeError` naming the key's type and leaves the reader
unchanged. -/
theorem spec_C4 (r : EccLibFASTAReader) (c : String) (s e st : Option Int)
    (i : Int) (tn : String) (seq : List Char)
    (hseq : r.lookupSeq c = some seq)
    (h0 : 0 ≤ i) (hlen : i < (seq.length : Int)) :
    (EccLibChromosomeRecord.getitem r c (.slice s e st) = r.get_sequence c s e)
    ∧ ((EccLibChromosomeRecord.getitem r c (.int i)).1
          = .ok ((seq.drop i.toNat).take 1)
        ∧ ((seq.drop i.toNat).take 1).length = 1)
    ∧ (EccLibChromosomeRecord.getitem r c (.other tn)
        = (.error (.typeError ("indices must be integers or slices, not " ++ tn)),
           r)) := by
  refine ⟨rfl, ⟨?_, ?_⟩, rfl⟩
  · have hfull : (r.get_sequence c none none).1 = .ok seq :=
      get_sequence_val r c seq hseq none none
    rcases hpair : r.get_sequence c none none with ⟨res, r1⟩
    rw [hpair] at hfull
    have hres : res = .ok seq := hfull
    subst hres
    simp only [EccLibChromosomeRecord.getitem, hpair]
    simp [pyCharAt, h0, hlen]
  · have hi : i.toNat < seq.length := by omega
    simp [List.length_take, List.length_drop]
    omega

/-- C4 witness: the sample reader on `chr1` at integer offset 2, arbitrary
slice and a `str` key. -/
theorem spec_C4_witness :
    ((EccLibChromosomeRecord.getitem sampleEccLib "chr1" (.int 2)).1
        = .ok ((['A', 'C', 'G', 'T'].drop (Int.toNat 2)).take 1))
    ∧ (EccLibChromosomeRecord.getitem sampleEccLib "chr1" (.other "str")
        = (.error (.typeError "indices must be integers or slices, not str"),
           sampleEccLib)) :=
  ⟨(spec_C4 sampleEccLib "chr1" none none none 2 "str" ['A', 'C', 'G', 'T']
      rfl (by decide) (by decide)).2.1.1,
   (spec_C4 sampleEccLib "chr1" none none none 2 "str" ['A', 'C', 'G', 'T']
      rfl (by decide) (by decide)).2.2⟩

/-- C6: a parse exception makes the adaptation adapter's `load` log one
warning carrying the underlying message and re-raise that same exception;
and `create_fasta_reader` propagates the chosen backend's load failure
unchanged — whichever backend was selected, its failure is the overall
result, with no second backend tried. -/
theorem spec_C6 (r : EccLibFASTAReader) (e e' : PyErr) (u : Bool)
    (st : ProbeState)
    (pp ep : Except PyErr (List (String × List Char))) :
    (r.load (.error e)
        = (.error e, [.warning ("eccLib FASTA parsing failed: " ++ e.message)]))
    ∧ ((get_fasta_reader u st).1.isEccLib = true →
        (create_fasta_reader u st (.error e) pp).1 = .error e)
    ∧ ((get_fasta_reader u st).1.isEccLib = false →
        (create_fasta_reader u st ep (.error e')).1 = .error e') := by
  obtain ⟨a, w⟩ := st
  refine ⟨rfl, ?_, ?_⟩ <;>
    cases u <;> cases a <;> cases w <;>
      simp [create_fasta_reader, get_fasta_reader, is_ecclib_available,
            FASTAReaderState.isEccLib, EccLibFASTAReader.load,
            PyfaidxReader.load]

/-- C6 witness: an eccLib parse failure with the flag on, and a pyfaidx
open failure with the flag off, both surface unchanged. -/
theorem spec_C6_witness :
    (sampleEccLibNoCache.load (.error (.exc "bad FASTA"))
        = (.error (.exc "bad FASTA"),
           [.warning "eccLib FASTA parsing failed: bad FASTA"]))
    ∧ ((create_fasta_reader true ⟨true, true⟩ (.error (.exc "bad FASTA"))
          (.ok sampleSeqs)).1 = .error (.exc "bad FASTA"))
    ∧ ((create_fasta_reader false ⟨true, true⟩ (.ok sampleSeqs)
          (.error (.exc "no such file"))).1 = .error (.exc "no such file")) :=
  ⟨(spec_C6 sampleEccLibNoCache (.exc "bad FASTA") (.exc "no such file") true
      ⟨true, true⟩ (.ok sampleSeqs) (.ok sampleSeqs)).1,
   (spec_C6 sampleEccLibNoCache (.exc "bad FASTA") (.exc "no such file") true
      ⟨true, true⟩ (.ok sampleSeqs) (.ok sampleSeqs)).2.1 rfl,
   (spec_C6 sampleEccLibNoCache (.exc "bad FASTA") (.exc "no such file") false
      ⟨true, true⟩ (.ok sampleSeqs) (.ok sampleSeqs)).2.2 rfl⟩

/-- C7: a successful `load` leaves every chromosome of the parsed file
cached with its full decoded sequence; and on a cache miss, both
`get_sequence` and `get_chromosome_length` re-derive the sequence from
the raw parsed handle, insert it into the cache, and return the value the
raw handle determines. -/
theorem spec_C7 (r : EccLibFASTAReader) (data : List (String × List Char))
    (c : String) (seq : List Char) (s e : Option Int)
    (r1 : EccLibFASTAReader) :
    ((r.load (.ok data)).1 = .ok r1 →
      ∀ c' ∈ data.map Prod.fst,
        ∃ v, dictGet data c' = some v
          ∧ dictGet r1.sequence_cache c' = some v)
    ∧ (dictGet r.sequence_cache c = none → r.fasta_data = some data →
        dictGet data c = some seq →
        (r.get_sequence c s e).1 = .ok (pySlice seq s e)
        ∧ dictGet (r.get_sequence c s e).2.sequence_cache c = some seq)
    ∧ (dictGet r.sequence_cache c = none → r.fasta_data = some data →
        dictGet data c = some seq →
        (r.get_chromosome_length c).1 = .ok seq.length
        ∧ dictGet (r.get_chromosome_length c).2.sequence_cache c = some seq) := by
  refine ⟨?_, ?_, ?_⟩
  · intro hload c' hc'
    have hr1 : r1 = { r with
        fasta_data := some data,
        sequence_cache := eagerCache data (data.map Prod.fst) r.sequence_cache } := by
      simp [EccLibFASTAReader.load] at hload
      exact hload.symm
    subst hr1
    rcases mem_keys_dictGet data c' hc' with ⟨v, hv⟩
    exact ⟨v, hv, eagerCache_mem data _ _ c' v hv hc'⟩
  · intro hmiss hdata hraw
    simp [EccLibFASTAReader.get_sequence, hmiss, hdata, hraw,
          sliceResult_eq_pySlice, dictGet_dictSet_self]
  · intro hmiss hdata hraw
    simp [EccLibFASTAReader.get_chromosome_length, hmiss, hdata, hraw,
          dictGet_dictSet_self]

/-- C7 witness: loading the sample file caches `chr1`; a cache-miss lookup
of `chr2` re-derives and caches it for both operations. -/
theorem spec_C7_witness :
    (∃ v, dictGet sampleSeqs "chr1" = some v
        ∧ dictGet sampleEccLibLoaded.sequence_cache "chr1" = some v)
    ∧ ((sampleEccLibNoCache.get_sequence "chr2" none none).1
          = .ok (pySlice ['T', 'T'] none none)
        ∧ dictGet
            (sampleEccLibNoCache.get_sequence "chr2" none none).2.sequence_cache
            "chr2" = some ['T', 'T'])
    ∧ ((sampleEccLibNoCache.get_chromosome_length "chr2").1 = .ok 2
        ∧ dictGet
            (sampleEccLibNoCache.get_chromosome_length "chr2").2.sequence_cache
            "chr2" = some ['T', 'T']) :=
  ⟨(spec_C7 EccLibFASTAReader.mk_init sampleSeqs "chr2" ['T', 'T'] none none
      sampleEccLibLoaded).1 rfl "chr1" (by decide),
   (spec_C7 sampleEccLibNoCache sampleSeqs "chr2" ['T', 'T'] none none
      sampleEccLibLoaded).2.1 rfl rfl rfl,
   (spec_C7 sampleEccLibNoCache sampleSeqs "chr2" ['T', 'T'] none none
      sampleEccLibLoaded).2.2 rfl rfl rfl⟩

/-- C8: for every chromosome the adaptation adapter can resolve,
`get_chromosome_length` returns exactly the length of the string that
`get_sequence` with no bounds returns — the length is derived from the
sequence itself. -/
theorem spec_C8 (r : EccLibFASTAReader) (c : String) (seq : List Char)
    (h : r.lookupSeq c = some seq) :
    (r.get_sequence c none none).1 = .ok seq
    ∧ (r.get_chromosome_length c).1 = .ok seq.length :=
  ⟨get_sequence_val r c seq h none none, get_chromosome_length_val r c seq h⟩

/-- C8 witness: the sample reader on `chr2`. -/
theorem spec_C8_witness :
    (sampleEccLib.get_sequence "chr2" none none).1 = .ok ['T', 'T']
    ∧ (sampleEccLib.get_chromosome_length "chr2").1 = .ok 2 :=
  spec_C8 sampleEccLib "chr2" ['T', 'T'] rfl

end IsoQuantFileParsers
